import Mathlib

/-!
# Verification of the conversational wallet front-end (copperxpayout)

Shallow embedding of the money-movement flows, credential/token lifecycle,
rate limiting, OTP sessions and deposit-notification deduplication of the
repository, together with theorems settling the specification claims.

Conventions of the embedding:
* JS numbers entered as amounts are modelled as `JsNum` (either NaN or an
  exact rational); `Math.floor` is `Int.floor` on the rational, and
  `toString()` on an integer-valued result is `toString : Int → String`.
* JS timestamps (`Date.now()`, `expiresAt`) are integers in milliseconds.
* Optional / possibly-`undefined` JS fields are `Option` values; a falsy
  check like `!x` is the `none` test (the empty-string-falsy corner is
  folded into `none`).
* Fallible code returns `Except String α`; an `Except.error` result is
  produced before any network request on that path.
* External API outcomes (refresh endpoint, OTP authenticate, quote calls,
  message sends) are oracle parameters of the functions that await them.
-/

/-- A JavaScript number as it appears in the amount handlers: either `NaN`
(what `parseFloat` returns on non-numeric text) or an exact value. -/
inductive JsNum where
  | nan : JsNum
  | num (q : ℚ) : JsNum
deriving DecidableEq, Repr

namespace JsNum

/-- JS comparison `x <= 0`; any comparison with NaN is false. -/
def leZero : JsNum → Bool
  | .nan => false
  | .num q => decide (q ≤ 0)

/-- JS `Math.floor(x * 100000000).toString()` as used by the amount
handlers (withdrawal.js lines 103-104): NaN propagates through the
multiplication and the floor, and stringifies to the literal text NaN. -/
def scaleToApiString : JsNum → String
  | .nan => "NaN"
  | .num q => toString (⌊q * 100000000⌋ : ℤ)

end JsNum

/-- JS `String.prototype.startsWith('/')` for the one-character case the
scene uses. -/
def jsStartsWithSlash (s : String) : Bool :=
  match s.toList with
  | '/' :: _ => true
  | _ => false

/-- JS `String.prototype.trim()`: strips whitespace from both ends. -/
def jsTrim (s : String) : String :=
  ⟨(((s.toList.dropWhile Char.isWhitespace).reverse).dropWhile Char.isWhitespace).reverse⟩

/-- JS `String.prototype.toLowerCase()` on the ASCII country codes the
flows feed it. -/
def jsToLower (s : String) : String :=
  ⟨s.toList.map Char.toLower⟩

/-- Accumulating decimal-digit scanner backing `parseFloat`: returns the
value read so far, how many digits were consumed, and the rest. -/
def parseDigitsAux (acc : Nat) (cnt : Nat) : List Char → Nat × Nat × List Char
  | [] => (acc, cnt, [])
  | c :: cs =>
    if c.isDigit then parseDigitsAux (acc * 10 + (c.toNat - 48)) (cnt + 1) cs
    else (acc, cnt, c :: cs)

/-- JavaScript `parseFloat` on the fragment the flows feed it: optional
sign, integer digits, optional fraction digits; trailing garbage is
ignored and input with no leading numeric part yields NaN.
(Exponent forms are not used by any input considered here.) -/
def parseFloat (s : String) : JsNum :=
  let cs := s.toList
  let signAndRest : Int × List Char :=
    match cs with
    | '-' :: r => (-1, r)
    | '+' :: r => (1, r)
    | r => (1, r)
  let sgn := signAndRest.1
  let (ip, icnt, rest) := parseDigitsAux 0 0 signAndRest.2
  match rest with
  | '.' :: frac =>
    let (fp, fcnt, _) := parseDigitsAux 0 0 frac
    if icnt = 0 ∧ fcnt = 0 then .nan
    else .num ((sgn : ℚ) * ((ip : ℚ) + (fp : ℚ) / (10 ^ fcnt : ℚ)))
  | _ => if icnt = 0 then .nan else .num ((sgn : ℚ) * (ip : ℚ))

/-! ## transferService (src/unnamed/part_008): sendToEmail / withdrawToWallet -/

/-- Body of `POST /api/transfers/send` as built by `sendToEmail`. -/
structure SendPayload where
  email : String
  amount : String
  purposeCode : String
  currency : String
  payeeId : Option String
deriving DecidableEq, Repr

/-- Body of `POST /api/transfers/wallet-withdraw` as built by
`withdrawToWallet`. -/
structure WalletWithdrawPayload where
  walletAddress : String
  amount : String
  currency : String
  purposeCode : String
  network : Option String
deriving DecidableEq, Repr

/-- `sendToEmail` (part_008 lines 172-232): after the auth check it throws
on amounts below 0.1, scales by 1e8 with `Math.floor`, raises the integer
to the 100000000 minimum when below it, and submits the payload.
`Except.ok` carries the payload handed to `makeApiRequest`; `Except.error`
paths throw before any network request. The numeric argument is the value
`parseFloat` yields for the caller-provided amount. -/
def sendToEmail (hasToken : Bool) (email : String) (a : ℚ)
    (payeeId : Option String) (currency : String) : Except String SendPayload :=
  if !hasToken then .error "User not authenticated"
  else if a < 1/10 then .error "Invalid amount: Amount must be at least 0.1 USDC"
  else
    let amountInt := (⌊a * 100000000⌋ : ℤ)
    let amountInt := if amountInt < 100000000 then 100000000 else amountInt
    .ok ⟨email, toString amountInt, "self", currency, payeeId⟩

/-- `withdrawToWallet` (part_008 lines 243-290): same minimum check and
minimum-raise as `sendToEmail`, but no auth check and a wallet payload. -/
def withdrawToWallet (a : ℚ) (walletAddress : String)
    (network : Option String) : Except String WalletWithdrawPayload :=
  if a < 1/10 then .error "Amount must be at least 0.1 USDC"
  else
    let amountInt := (⌊a * 100000000⌋ : ℤ)
    let amountInt := if amountInt < 100000000 then 100000000 else amountInt
    .ok ⟨walletAddress, toString amountInt, "USDC", "self", network⟩

/-- One item of the `POST /api/transfers/send-batch` payload built by
`processBatchTransfer` (part_006 lines 2694-2735). -/
structure BatchItemRequest where
  email : String
  amount : String
  purposeCode : String
  currency : String
  payeeId : Option String
  walletId : Option String
deriving DecidableEq, Repr

/-- `processBatchTransfer` per-payee item construction: the amount is
`Math.floor(amount * 1e8).toString()` with no minimum raise, tagged with
the caller-generated request identifier. -/
def processBatchItem (requestId : String) (email : String)
    (payeeId : Option String) (walletId : Option String) (a : ℚ) :
    String × BatchItemRequest :=
  (requestId, ⟨email, toString (⌊a * 100000000⌋ : ℤ), "self", "USDC", payeeId, walletId⟩)

/-! ## Withdrawal scene (src/src/bot/commands/withdrawal.js) -/

/-- How a wizard step of the withdrawal scene ends. -/
inductive StepOutcome where
  | cancelled
  | stay
  | advance
  | leaveErr
deriving DecidableEq, Repr

/-- Body of `POST /api/quotes/public-offramp` built in step 2. -/
structure QuotePublicRequest where
  sourceCountry : String
  destinationCountry : String
  amount : String
  currency : String
deriving DecidableEq, Repr

/-- Observable result of the withdrawal scene amount step. -/
structure Step2Result where
  outcome : StepOutcome
  profileRequested : Bool
  quoteRequest : Option QuotePublicRequest
  amountStored : Option String
deriving DecidableEq, Repr

/-- Step 2 of `withdrawalScene` (withdrawal.js lines 60-207): a leading
slash cancels; `parseFloat` of the trimmed text is rejected only when
`amount <= 0` (note JS: NaN fails that comparison, so non-numeric text
falls through); otherwise the amount is scaled, the profile is fetched
(`countryCode` lower-cased, defaulting to vnm on absence or fetch error),
the public-offramp quote is requested and the wizard advances on quote
success or leaves the scene on quote error. -/
def withdrawalStep2 (text : String) (profileCountry : Option String)
    (quoteOk : Bool) : Step2Result :=
  if jsStartsWithSlash text then ⟨.cancelled, false, none, none⟩
  else
    let amount := parseFloat (jsTrim text)
    if amount.leZero then ⟨.stay, false, none, none⟩
    else
      let amountStr := amount.scaleToApiString
      let countryCode :=
        match profileCountry with
        | some c => jsToLower c
        | none => "vnm"
      let req : QuotePublicRequest := ⟨"none", countryCode, amountStr, "USDC"⟩
      if quoteOk then ⟨.advance, true, some req, some amountStr⟩
      else ⟨.leaveErr, true, some req, some amountStr⟩

/-- The provisional quote response stored in the scene session at step 2
(only its presence matters at step 3: it is read but not used). -/
structure ProvisionalQuote where
  quotePayload : Option String
  quoteSignature : Option String
  arrivalTimeMessage : Option String
deriving DecidableEq, Repr

/-- Response of the authoritative `POST /api/quotes/offramp` call. -/
structure OfframpQuoteResponse where
  quotePayload : Option String
  quoteSignature : Option String
deriving DecidableEq, Repr

/-- Scene session data carried from step 2 into step 3. -/
structure WithdrawSessionData where
  amount : String
  countryCode : String
  quoteResponse : ProvisionalQuote
deriving DecidableEq, Repr

/-- Body of the authoritative `POST /api/quotes/offramp` request. -/
structure OfframpQuoteRequest where
  sourceCountry : String
  destinationCountry : String
  amount : String
  currency : String
deriving DecidableEq, Repr

/-- Body of the `POST /api/transfers/offramp` execution request. -/
structure OfframpExecRequest where
  quotePayload : String
  quoteSignature : String
deriving DecidableEq, Repr

/-- Step 3 confirm branch of `withdrawalScene` (withdrawal.js lines
238-273): it requests a fresh authoritative quote built from the stored
amount and country code, and, when that response carries both
`quotePayload` and `quoteSignature`, submits exactly those two fields to
`POST /api/transfers/offramp`; a response missing either field throws
before the execution request. -/
def withdrawalStep3Confirm (sess : WithdrawSessionData)
    (official : OfframpQuoteResponse) :
    OfframpQuoteRequest × Option OfframpExecRequest :=
  let quoteReq : OfframpQuoteRequest := ⟨"none", sess.countryCode, sess.amount, "USDC"⟩
  match official.quotePayload, official.quoteSignature with
  | some qp, some qs => (quoteReq, some ⟨qp, qs⟩)
  | _, _ => (quoteReq, none)

/-- Amount validation of the transfer scene steps (part_006, e.g. lines
514-543 and 1734-1741): `isNaN` and non-positive amounts both throw into
the local catch, which reprompts and returns without advancing. `true`
means the input is rejected in place. -/
def transferAmountStepRejects (text : String) : Bool :=
  match parseFloat (jsTrim text) with
  | .nan => true
  | .num q => decide (q ≤ 0)

/-! ## Token store (src/src/dependencies.js, in-memory branch) -/

/-- Stored token record (`TOKENS[userId]`). `expiresAt` is an absolute
millisecond timestamp, `expiresIn` a lifetime in seconds. -/
structure TokenData where
  accessToken : String
  refreshToken : Option String := none
  expiresIn : Option Int := none
  expiresAt : Option Int := none
deriving DecidableEq, Repr

/-- Outcome of one `POST /api/auth/refresh` network call: a 200 response
carrying a token payload, or a failure that is or is not an HTTP 401. -/
inductive RefreshResult where
  | success (t : TokenData)
  | failure (is401 : Bool)
deriving DecidableEq, Repr

/-- `storeUserToken` (dependencies.js lines 223-250, in-memory branch):
fills `expiresAt` from `expiresIn` when absent (mutating the passed
object) and returns what is placed in the store. -/
def storeUserToken (now : Int) (td : TokenData) : TokenData :=
  if td.expiresAt = none ∧ td.expiresIn ≠ none then
    { td with expiresAt := td.expiresIn.map (fun s => now + s * 1000) }
  else td

/-- The expiry test `tokenData.expiresAt && new Date(tokenData.expiresAt)
< new Date()`: false when `expiresAt` is absent, strict comparison
otherwise. -/
def isExpired (td : TokenData) (now : Int) : Bool :=
  match td.expiresAt with
  | some e => decide (e < now)
  | none => false

/-- `refreshToken` (dependencies.js lines 441-480). Returns the new store
contents, the value returned to the caller, and how many refresh network
calls were made. With no refresh token it returns null without a call; on
a 200 with a truthy `accessToken` it stores (and, by JS reference
mutation, returns) the normalized token; on failure it returns null,
clearing the stored credentials only when the failure was a 401. It never
throws: every error path is caught internally and becomes a null return. -/
def refreshToken (now : Int) (store : Option TokenData) (rt : Option String)
    (api : RefreshResult) : Option TokenData × Option TokenData × Nat :=
  match rt with
  | none => (store, none, 0)
  | some _ =>
    match api with
    | .success t =>
      if t.accessToken ≠ "" then
        let stored := storeUserToken now t
        (some stored, some stored, 1)
      else (store, none, 1)
    | .failure is401 => (if is401 then none else store, none, 1)

/-- `getUserToken` (dependencies.js lines 257-333, in-memory branch lines
305-332; the Redis branch has the same logic). Not-yet-expired tokens are
returned as stored with no refresh; an expired token with a refresh token
delegates to `refreshToken` (whose null result is returned as-is, since
`refreshToken` never throws the catch that would clear the entry is
unreachable); an expired token without one is cleared. -/
def getUserToken (now : Int) (store : Option TokenData) (api : RefreshResult) :
    Option TokenData × Option TokenData × Nat :=
  match store with
  | none => (none, none, 0)
  | some td =>
    if isExpired td now then
      match td.refreshToken with
      | some rt => refreshToken now store (some rt) api
      | none => (none, none, 0)
    else (store, some td, 0)

/-- Auth portion of `makeApiRequest` (dependencies.js lines 107-133):
fetches the token via `getUserToken`, sets the bearer header, and when
`expiresAt` is within 5 minutes of now proactively refreshes, switching
the header to the new token when the refresh yields a truthy access
token. Returns (store, Authorization header, refresh network calls). -/
def makeApiRequestAuth (now : Int) (store : Option TokenData)
    (api : RefreshResult) : Option TokenData × Option String × Nat :=
  match getUserToken now store api with
  | (store1, none, calls1) => (store1, none, calls1)
  | (store1, some td, calls1) =>
    let hdr0 : Option String :=
      if td.accessToken ≠ "" then some ("Bearer " ++ td.accessToken) else none
    match td.expiresAt with
    | some e =>
      if e < now + 300000 then
        match refreshToken now store1 td.refreshToken api with
        | (store2, some t2, calls2) =>
          if t2.accessToken ≠ "" then
            (store2, some ("Bearer " ++ t2.accessToken), calls1 + calls2)
          else (store2, hdr0, calls1 + calls2)
        | (store2, none, calls2) => (store2, hdr0, calls1 + calls2)
      else (store1, hdr0, calls1)
    | none => (store1, hdr0, calls1)

/-! ## Rate limiting (src/src/dependencies.js lines 36-105) -/

/-- One endpoint's rate-limit configuration. -/
structure RLConfig where
  limit : Nat
  windowMs : Int
deriving DecidableEq, Repr

/-- `rateLimitConfig` lookup with its default entry. -/
def rateLimitConfigFor (endpoint : String) : RLConfig :=
  if endpoint = "/api/auth/email-otp/request" then ⟨5, 60000⟩
  else if endpoint = "/api/auth/email-otp/authenticate" then ⟨10, 60000⟩
  else if endpoint = "/api/transfers/send" then ⟨20, 60000⟩
  else ⟨50, 60000⟩

/-- Stored per-(user, endpoint) counter: `{ count, resetTime }`. -/
structure RLEntry where
  count : Nat
  resetTime : Int
deriving DecidableEq, Repr

/-- Status object returned by `checkRateLimit`. -/
structure RLStatus where
  limited : Bool
  resetTime : Int
  limit : Nat
  remaining : Nat
deriving DecidableEq, Repr

/-- `checkRateLimit` (dependencies.js lines 55-83) for one (user,
endpoint) key: reset the window when absent or past `resetTime`,
increment the count, and report limited when the count exceeds the
endpoint's limit. Returns the status and the updated stored entry. -/
def checkRateLimit (endpoint : String) (now : Int) (st : Option RLEntry) :
    RLStatus × RLEntry :=
  let cfg := rateLimitConfigFor endpoint
  let base : RLEntry :=
    match st with
    | some e => if e.resetTime < now then ⟨0, now + cfg.windowMs⟩ else e
    | none => ⟨0, now + cfg.windowMs⟩
  let e : RLEntry := ⟨base.count + 1, base.resetTime⟩
  (⟨decide (cfg.limit < e.count), e.resetTime, cfg.limit, cfg.limit - e.count⟩, e)

/-- Rate-limit gate of `makeApiRequest` (dependencies.js lines 98-105):
a limited status throws before the network call. The boolean reports
whether the network call is reached. -/
def makeApiRequestGate (endpoint : String) (now : Int) (st : Option RLEntry) :
    RLEntry × Bool :=
  let r := checkRateLimit endpoint now st
  (r.2, !r.1.limited)

/-- A sequence of `checkRateLimit` calls for the same key at the given
times, threading the stored entry; returns the final entry and the
`limited` flag of each call. -/
def rlCalls (endpoint : String) : List Int → Option RLEntry → Option RLEntry × List Bool
  | [], st => (st, [])
  | t :: ts, st =>
    let r := checkRateLimit endpoint t st
    let rest := rlCalls endpoint ts (some r.2)
    (rest.1, r.1.limited :: rest.2)

/-! ## OTP sessions (src/src/services/authService.js) -/

/-- One entry of the `otpSessions` map: `{ sid, createdAt, retries }`. -/
structure OtpSession where
  sid : String
  createdAt : Int
  retries : Nat
deriving DecidableEq, Repr

/-- Outcome of the `POST /api/auth/email-otp/authenticate` call: a 200
with a valid token payload (the OTP was correct), or a rejection. -/
inductive AuthApi where
  | ok
  | reject
deriving DecidableEq, Repr

/-- The `OTP_MAX_RETRIES` value the service actually imports: config.js
(src/src/config.js) defines and exports no such constant, so the
destructured import is `undefined`, modelled as `none`. -/
def OTP_MAX_RETRIES : Option Nat := none

/-- The JS comparison `session.retries >= OTP_MAX_RETRIES`: with a defined
cap it is the numeric comparison; against `undefined` it is false (the
comparison with NaN). -/
def jsGeCap (r : Nat) (cap : Option Nat) : Bool :=
  match cap with
  | some m => decide (m ≤ r)
  | none => false

/-- `verifyEmailOtp` (authService.js lines 120-297) restricted to one
email's map entry. Returns the new map entry and the outcome: a missing
or sid-mismatched session errors; a session at or beyond the retry cap is
deleted and errors regardless of the OTP; otherwise the retry counter is
incremented, and the authenticate call either succeeds (entry deleted,
token stored) or rejects (entry kept with the incremented counter). -/
def verifyEmailOtp (cap : Option Nat) (sess : Option OtpSession) (sid : String)
    (api : AuthApi) : Option OtpSession × Except String Bool :=
  match sess with
  | none => (none, .error "Invalid or expired session. Please request a new OTP.")
  | some s =>
    if s.sid ≠ sid then
      (some s, .error "Invalid or expired session. Please request a new OTP.")
    else if jsGeCap s.retries cap then
      (none, .error "Too many failed attempts. Please request a new OTP.")
    else
      let s1 : OtpSession := ⟨s.sid, s.createdAt, s.retries + 1⟩
      match api with
      | .ok => (none, .ok true)
      | .reject => (some s1, .error "Authentication failed")

/-! ## Deposit notifications (src/src/utils/pusherClient.js)

The file holds two divergent `PusherClient` implementations; both are
modelled. -/

namespace PusherClient1

/-- `data.metadata` of a deposit event (first implementation). -/
structure DepositMeta where
  network : Option String
  txHash : Option String
deriving DecidableEq, Repr

/-- A deposit event payload (first implementation shape). -/
structure DepositEvent where
  amount : Option String
  currency : Option String
  metadata : Option DepositMeta
deriving DecidableEq, Repr

/-- The module-level `notificationCache` as (key, expiry-time) entries;
`set` overwrites and the scheduled `setTimeout` delete is modelled by an
entry being active only before its expiry instant. -/
abbrev Cache := List (String × Int)

/-- `notificationCache.has(key)` at a given instant. -/
def cacheActive (c : Cache) (key : String) (now : Int) : Bool :=
  c.any (fun e => e.1 == key && decide (now < e.2))

/-- `handleDepositEvent` (pusherClient.js lines 111-174, first
implementation): drop on missing metadata or missing required fields;
drop silently when the (user, txHash) key is cached; otherwise cache the
key for 3600000 ms and send one chat message. A send failure removes the
key again; an unset bot instance sends nothing but leaves the key cached.
Returns the new cache and the number of chat messages sent. -/
def handleDepositEvent (userId : String) (now : Int) (c : Cache)
    (ev : DepositEvent) (hasBot : Bool) (sendOk : Bool) : Cache × Nat :=
  match ev.metadata with
  | none => (c, 0)
  | some m =>
    match ev.amount, m.txHash, m.network with
    | some _, some h, some _ =>
      let key := userId ++ ":" ++ h
      if cacheActive c key now then (c, 0)
      else
        let c1 : Cache := (key, now + 3600000) :: c.filter (fun e => e.1 != key)
        if hasBot then
          if sendOk then (c1, 1)
          else (c1.filter (fun e => e.1 != key), 0)
        else (c1, 0)
    | _, _, _ => (c, 0)

end PusherClient1

namespace PusherClient2

/-- `handleDepositEvent` (pusherClient.js lines 455-511, second
implementation): no dedup cache at all. The event fields are defaulted,
the static handler is tried first, and on its absence or failure the bot
instance sends the message directly. Returns the number of direct bot
chat messages sent by one invocation. -/
def handleDepositEvent (hasHandler : Bool) (handlerOk : Bool)
    (hasBot : Bool) : Nat :=
  if hasHandler then
    if handlerOk then 0
    else if hasBot then 1 else 0
  else if hasBot then 1 else 0

end PusherClient2

/-! ## Helper lemmas -/

/-- Evaluation of the withdrawal amount step when the text parses to a
positive number: the step scales the amount, requests the profile and the
public quote, and advances (or leaves on quote error). -/
lemma withdrawalStep2_pos (text : String) (cc : Option String) (quoteOk : Bool)
    (a : ℚ) (hs : jsStartsWithSlash text = false)
    (hp : parseFloat (jsTrim text) = .num a) (ha : 0 < a) :
    withdrawalStep2 text cc quoteOk =
      ⟨if quoteOk then .advance else .leaveErr, true,
       some ⟨"none", (match cc with | some c => jsToLower c | none => "vnm"),
             toString (⌊a * 100000000⌋ : ℤ), "USDC"⟩,
       some (toString (⌊a * 100000000⌋ : ℤ))⟩ := by
  have hz : JsNum.leZero (.num a) = false := by
    simp [JsNum.leZero, not_le.mpr ha]
  cases quoteOk <;>
    simp [withdrawalStep2, hs, hp, hz, JsNum.scaleToApiString]

/-- Evaluation of the withdrawal amount step when the text parses to a
non-positive number: the step replies and stays, with no request. -/
lemma withdrawalStep2_nonpos (text : String) (cc : Option String) (quoteOk : Bool)
    (a : ℚ) (hs : jsStartsWithSlash text = false)
    (hp : parseFloat (jsTrim text) = .num a) (ha : a ≤ 0) :
    withdrawalStep2 text cc quoteOk = ⟨.stay, false, none, none⟩ := by
  have hz : JsNum.leZero (.num a) = true := by simp [JsNum.leZero, ha]
  simp [withdrawalStep2, hs, hp, hz]

/-! ## Claims -/

/-- C1: in the withdrawal flow, after the user confirms, the payload
submitted to `POST /api/transfers/offramp` consists exactly of the
`quotePayload` and `quoteSignature` of the immediately preceding
authoritative `POST /api/quotes/offramp` response, and it is independent
of the provisional quote stored in the scene session (two sessions
agreeing on amount and country but holding different provisional quotes
submit the same execution payload). -/
theorem c1_offramp_execution_payload
    (sess1 sess2 : WithdrawSessionData) (official : OfframpQuoteResponse)
    (qp qs : String) (hAmt : sess1.amount = sess2.amount)
    (hCc : sess1.countryCode = sess2.countryCode)
    (hqp : official.quotePayload = some qp)
    (hqs : official.quoteSignature = some qs) :
    (withdrawalStep3Confirm sess1 official).2 = some ⟨qp, qs⟩ ∧
    withdrawalStep3Confirm sess1 official = withdrawalStep3Confirm sess2 official := by
  unfold withdrawalStep3Confirm
  rw [hqp, hqs, hAmt, hCc]
  exact ⟨rfl, rfl⟩

/-- Witness for C1 at a concrete session and quote pair: the execution
payload equals the authoritative quote fields and ignores the stored
provisional quote. -/
theorem c1_offramp_execution_payload_witness :
    (withdrawalStep3Confirm ⟨"1234000000", "vnm", ⟨some "prov", some "provsig", none⟩⟩
        ⟨some "official-payload", some "official-sig"⟩).2 =
      some ⟨"official-payload", "official-sig"⟩ ∧
    withdrawalStep3Confirm ⟨"1234000000", "vnm", ⟨some "prov", some "provsig", none⟩⟩
        ⟨some "official-payload", some "official-sig"⟩ =
      withdrawalStep3Confirm ⟨"1234000000", "vnm", ⟨none, none, none⟩⟩
        ⟨some "official-payload", some "official-sig"⟩ :=
  c1_offramp_execution_payload _ _ _ "official-payload" "official-sig" rfl rfl rfl rfl

/-- C10: every amount `a` accepted by `sendToEmail` or `withdrawToWallet`
with `0.1 ≤ a` and `⌊a * 10^8⌋ < 10^8` is submitted with the amount string
exactly "100000000": user amounts between 0.1 and 1 are silently raised
to one whole unit. -/
theorem c10_minimum_raise (a : ℚ) (email walletAddress : String)
    (payeeId network : Option String) (currency : String)
    (hmin : 1/10 ≤ a) (hfl : (⌊a * 100000000⌋ : ℤ) < 100000000) :
    sendToEmail true email a payeeId currency =
      .ok ⟨email, "100000000", "self", currency, payeeId⟩ ∧
    withdrawToWallet a walletAddress network =
      .ok ⟨walletAddress, "100000000", "USDC", "self", network⟩ := by
  have hnl : ¬ (a < (10 : ℚ)⁻¹) := by
    rw [inv_eq_one_div]
    exact not_lt.mpr hmin
  constructor
  · simp [sendToEmail, hnl, hfl]
    try decide
  · simp [withdrawToWallet, hnl, hfl]
    try decide

/-- Witness for C10 at amount 1/2: both helpers submit "100000000". -/
theorem c10_minimum_raise_witness :
    sendToEmail true "r@x.io" (1/2) none "USDV" =
      .ok ⟨"r@x.io", "100000000", "self", "USDV", none⟩ ∧
    withdrawToWallet (1/2) "0xabc" (some "SOLANA") =
      .ok ⟨"0xabc", "100000000", "USDC", "self", some "SOLANA"⟩ :=
  c10_minimum_raise (1/2) "r@x.io" "0xabc" none (some "SOLANA") "USDV"
    (by norm_num) (by norm_num)

/-- Evaluation of `parseFloat` on "12.34". -/
lemma parseFloat_12_34 : parseFloat (jsTrim "12.34") = JsNum.num (617/50) := by
  have h0 : parseFloat (jsTrim "12.34") =
      JsNum.num ((1 : ℚ) * ((12 : ℚ) + (34 : ℚ) / (10 ^ 2 : ℚ))) := by rfl
  rw [h0]
  norm_num

/-- Evaluation of `parseFloat` on "0.05". -/
lemma parseFloat_0_05 : parseFloat (jsTrim "0.05") = JsNum.num (1/20) := by
  have h0 : parseFloat (jsTrim "0.05") =
      JsNum.num ((1 : ℚ) * ((0 : ℚ) + (5 : ℚ) / (10 ^ 2 : ℚ))) := by rfl
  rw [h0]
  norm_num

/-- C2 counterexample: `sendToEmail`, one of the money-movement
submission paths, submits "100000000" for the amount 1/2, while
`⌊(1/2) * 10^8⌋` rendered in base 10 is "50000000" — so the claim that
every submitted amount string equals the floored scaling of the entered
amount fails on this path. -/
theorem c2_counterexample :
    sendToEmail true "r@x.io" (1/2) none "USDV" =
      .ok ⟨"r@x.io", "100000000", "self", "USDV", none⟩ ∧
    toString (⌊(1/2 : ℚ) * 100000000⌋ : ℤ) = "50000000" := by
  constructor
  · rw [sendToEmail]
    norm_num
    decide
  · norm_num
    decide

/-- C2 (amended): in the withdrawal scene amount step and in the batch
transfer items the amount string placed in the API request equals
`⌊a * 10^8⌋` rendered in base 10; `sendToEmail` / `withdrawToWallet`
additionally raise the scaled integer to the 10^8 minimum (see C10), so
there the equality holds only for amounts of at least one whole unit. -/
theorem c2_amount_scaling (text : String) (cc : Option String) (a : ℚ)
    (requestId email : String) (payeeId walletId : Option String)
    (hs : jsStartsWithSlash text = false)
    (hp : parseFloat (jsTrim text) = .num a) (ha : 0 < a) :
    (withdrawalStep2 text cc true).amountStored =
      some (toString (⌊a * 100000000⌋ : ℤ)) ∧
    (withdrawalStep2 text cc true).quoteRequest.map QuotePublicRequest.amount =
      some (toString (⌊a * 100000000⌋ : ℤ)) ∧
    (processBatchItem requestId email payeeId walletId a).2.amount =
      toString (⌊a * 100000000⌋ : ℤ) := by
  rw [withdrawalStep2_pos text cc true a hs hp ha]
  exact ⟨rfl, rfl, rfl⟩

/-- Witness for C2 at the spec's example: entering "12.34" in the
withdrawal scene stores and requests amount "1234000000", and a batch
item for 12.34 carries "1234000000". -/
theorem c2_amount_scaling_witness :
    (withdrawalStep2 "12.34" (some "VNM") true).amountStored = some "1234000000" ∧
    (processBatchItem "req-1" "a@b.c" none none (617/50)).2.amount = "1234000000" := by
  have h := c2_amount_scaling "12.34" (some "VNM") (617/50) "req-1" "a@b.c" none none
    (by decide) parseFloat_12_34 (by norm_num)
  have hv : toString (⌊(617/50 : ℚ) * 100000000⌋ : ℤ) = "1234000000" := by
    norm_num
    decide
  exact ⟨h.1.trans (by rw [hv]), h.2.2.trans hv⟩

/-- C3 counterexample: the withdrawal scene amount step accepts 0.05
(which is below the 0.1 minimum), issues the profile fetch and the
public-offramp quote request carrying amount "5000000", and advances —
so the claim that every transfer/withdrawal path rejects sub-minimum
amounts before any network request fails for the withdrawal scene. -/
theorem c3_counterexample :
    withdrawalStep2 "0.05" (some "VNM") true =
      ⟨.advance, true, some ⟨"none", "vnm", "5000000", "USDC"⟩, some "5000000"⟩ ∧
    (1/20 : ℚ) < 1/10 := by
  constructor
  · rw [withdrawalStep2_pos "0.05" (some "VNM") true (1/20) (by decide) parseFloat_0_05
      (by norm_num)]
    have hv : toString (⌊(1/20 : ℚ) * 100000000⌋ : ℤ) = "5000000" := by
      norm_num
      decide
    rw [hv]
    decide
  · norm_num

/-- C3 (amended): `sendToEmail` and `withdrawToWallet` reject every
amount below 0.1 before any network request is made, while the
withdrawal scene rejects only non-positive amounts (its amount step has
no minimum check and proceeds to the quote request for any positive
input, as the counterexample shows). -/
theorem c3_min_amount_rejection (a : ℚ) (email walletAddress : String)
    (payeeId network : Option String) (currency : String)
    (text : String) (cc : Option String) (quoteOk : Bool) (b : ℚ)
    (hlt : a < 1/10) (hs : jsStartsWithSlash text = false)
    (hp : parseFloat (jsTrim text) = .num b) (hb : b ≤ 0) :
    sendToEmail true email a payeeId currency =
      .error "Invalid amount: Amount must be at least 0.1 USDC" ∧
    withdrawToWallet a walletAddress network =
      .error "Amount must be at least 0.1 USDC" ∧
    withdrawalStep2 text cc quoteOk = ⟨.stay, false, none, none⟩ := by
  have hlt' : a < (10 : ℚ)⁻¹ := by
    rw [inv_eq_one_div]
    exact hlt
  refine ⟨?_, ?_, withdrawalStep2_nonpos text cc quoteOk b hs hp hb⟩
  · simp [sendToEmail, hlt']
  · simp [withdrawToWallet, hlt']

/-- Witness for C3 (amended) at amount 1/20 and scene text "-5". -/
theorem c3_min_amount_rejection_witness :
    sendToEmail true "r@x.io" (1/20) none "USDV" =
      .error "Invalid amount: Amount must be at least 0.1 USDC" ∧
    withdrawToWallet (1/20) "0xabc" none =
      .error "Amount must be at least 0.1 USDC" ∧
    withdrawalStep2 "-5" (some "VNM") true = ⟨.stay, false, none, none⟩ := by
  have hp : parseFloat (jsTrim "-5") = JsNum.num (-5) := by
    have h0 : parseFloat (jsTrim "-5") =
        JsNum.num (((-1 : Int) : ℚ) * ((5 : Nat) : ℚ)) := by rfl
    rw [h0]
    norm_num
  exact c3_min_amount_rejection (1/20) "r@x.io" "0xabc" none none "USDV"
    "-5" (some "VNM") true (-5) (by norm_num) (by decide) hp (by norm_num)

/-- C9 (code slip, evaluated at the failing input): non-numeric text
"abc" at the withdrawal scene amount step parses to NaN, which passes
the `amount <= 0` check (false for NaN), so the step advances and issues
the profile fetch and a quote request carrying the amount string "NaN" —
while the transfer scene amount steps, which check `isNaN`, reject the
same text in place. -/
theorem c9_nan_amount_bug :
    withdrawalStep2 "abc" (some "USA") true =
      ⟨.advance, true, some ⟨"none", "usa", "NaN", "USDC"⟩, some "NaN"⟩ ∧
    transferAmountStepRejects "abc" = true := by
  exact ⟨by decide, by decide⟩

/-- `storeUserToken` only fills in `expiresAt`; the access token is
untouched. -/
lemma storeUserToken_accessToken (now : Int) (td : TokenData) :
    (storeUserToken now td).accessToken = td.accessToken := by
  unfold storeUserToken
  split <;> rfl

/-- C5 counterexample: with a stored token whose `expiresAt` is 2 minutes
in the future (now = 0, expiresAt = 120000) and a valid refresh token,
`getUserToken` returns the stored token unchanged — same `expiresAt` —
and makes zero refresh calls, even though the refresh oracle would
succeed; the claim requires a refreshed token with a strictly later
`expiresAt` and exactly one refresh call. -/
theorem c5_counterexample :
    getUserToken 0 (some ⟨"tokA", some "refA", none, some 120000⟩)
        (.success ⟨"tokB", some "refB", some 3600, none⟩) =
      (some ⟨"tokA", some "refA", none, some 120000⟩,
       some ⟨"tokA", some "refA", none, some 120000⟩, 0) := by
  decide

/-- C5 (amended): `getUserToken` returns a not-yet-expired stored token
unchanged with no refresh call; the proactive refresh for tokens within
the 5-minute skew of expiry is performed inside `makeApiRequest`, which
makes one refresh call per request (so each concurrent request refreshes
independently — there is no single-flight guard). -/
theorem c5_proactive_refresh_location (now : Int) (td t2 : TokenData)
    (api : RefreshResult) (e : Int) (rt : String)
    (hne : isExpired td now = false)
    (he : td.expiresAt = some e) (hskew : e < now + 300000)
    (hrt : td.refreshToken = some rt) (ht2 : t2.accessToken ≠ "") :
    getUserToken now (some td) api = (some td, some td, 0) ∧
    makeApiRequestAuth now (some td) (.success t2) =
      (some (storeUserToken now t2), some ("Bearer " ++ t2.accessToken), 1) := by
  have h1 : ∀ ap : RefreshResult, getUserToken now (some td) ap = (some td, some td, 0) := by
    intro ap
    simp [getUserToken, hne]
  refine ⟨h1 api, ?_⟩
  have hacc : (storeUserToken now t2).accessToken = t2.accessToken :=
    storeUserToken_accessToken now t2
  simp [makeApiRequestAuth, h1, he, hskew, hrt, refreshToken, ht2, hacc]

/-- Witness for C5 (amended) at a token expiring 2 minutes from now. -/
theorem c5_proactive_refresh_location_witness :
    getUserToken 0 (some ⟨"tokA", some "refA", none, some 120000⟩)
        (.success ⟨"tokB", some "refB", some 3600, none⟩) =
      (some ⟨"tokA", some "refA", none, some 120000⟩,
       some ⟨"tokA", some "refA", none, some 120000⟩, 0) ∧
    makeApiRequestAuth 0 (some ⟨"tokA", some "refA", none, some 120000⟩)
        (.success ⟨"tokB", some "refB", some 3600, none⟩) =
      (some (storeUserToken 0 ⟨"tokB", some "refB", some 3600, none⟩),
       some ("Bearer " ++ "tokB"), 1) :=
  c5_proactive_refresh_location 0 ⟨"tokA", some "refA", none, some 120000⟩
    ⟨"tokB", some "refB", some 3600, none⟩
    (.success ⟨"tokB", some "refB", some 3600, none⟩) 120000 "refA"
    (by decide) rfl (by decide) rfl (by decide)

/-- C6 counterexample: first, for an expired stored token (expiresAt =
100, now = 200) whose refresh fails with a non-401 error, `getUserToken`
returns null but the stored entry is NOT deleted (refresh failures clear
the entry only on HTTP 401); second, at the boundary now = expiresAt the
token is not treated as expired at all: it is returned as stored with
zero refresh attempts, though the claim reads "expired (now >=
expiresAt)". -/
theorem c6_counterexample :
    getUserToken 200 (some ⟨"tokA", some "refA", none, some 100⟩) (.failure false) =
      (some ⟨"tokA", some "refA", none, some 100⟩, none, 1) ∧
    getUserToken 100 (some ⟨"tokA", some "refA", none, some 100⟩) (.failure false) =
      (some ⟨"tokA", some "refA", none, some 100⟩,
       some ⟨"tokA", some "refA", none, some 100⟩, 0) := by
  exact ⟨by decide, by decide⟩

/-- C6 (amended): for a stored token that is strictly expired
(expiresAt < now) with a refresh token present, `getUserToken` makes
exactly one refresh attempt; on success it persists and returns the new
token; on failure it returns null, deleting the stored entry only when
the failure was an HTTP 401 (on other failures the expired entry remains
stored). -/
theorem c6_expired_refresh (now e : Int) (td : TokenData) (rt : String)
    (api : RefreshResult)
    (he : td.expiresAt = some e) (hexp : e < now)
    (hrt : td.refreshToken = some rt) :
    (getUserToken now (some td) api).2.2 = 1 ∧
    (∀ t2 : TokenData, api = .success t2 → t2.accessToken ≠ "" →
      getUserToken now (some td) api =
        (some (storeUserToken now t2), some (storeUserToken now t2), 1)) ∧
    (api = .failure true → getUserToken now (some td) api = (none, none, 1)) ∧
    (api = .failure false → getUserToken now (some td) api = (some td, none, 1)) := by
  have hx : isExpired td now = true := by
    simp [isExpired, he, hexp]
  refine ⟨?_, ?_, ?_, ?_⟩
  · cases api with
    | success t =>
      by_cases h : t.accessToken = "" <;>
        simp [getUserToken, hx, hrt, refreshToken, h]
    | failure b =>
      cases b <;> simp [getUserToken, hx, hrt, refreshToken]
  · intro t2 hap ht2
    subst hap
    simp [getUserToken, hx, hrt, refreshToken, ht2]
  · intro hap
    subst hap
    simp [getUserToken, hx, hrt, refreshToken]
  · intro hap
    subst hap
    simp [getUserToken, hx, hrt, refreshToken]

/-- Witness for C6 (amended) at an expired token whose refresh fails with
a 401: one refresh call, entry deleted, null returned. -/
theorem c6_expired_refresh_witness :
    (getUserToken 200 (some ⟨"tokA", some "refA", none, some 100⟩)
        (.failure true)).2.2 = 1 ∧
    (∀ t2 : TokenData, RefreshResult.failure true = .success t2 →
      t2.accessToken ≠ "" →
      getUserToken 200 (some ⟨"tokA", some "refA", none, some 100⟩)
          (.failure true) =
        (some (storeUserToken 200 t2), some (storeUserToken 200 t2), 1)) ∧
    (RefreshResult.failure true = .failure true →
      getUserToken 200 (some ⟨"tokA", some "refA", none, some 100⟩)
          (.failure true) = (none, none, 1)) ∧
    (RefreshResult.failure true = .failure false →
      getUserToken 200 (some ⟨"tokA", some "refA", none, some 100⟩)
          (.failure true) =
        (some ⟨"tokA", some "refA", none, some 100⟩, none, 1)) :=
  c6_expired_refresh 200 100 ⟨"tokA", some "refA", none, some 100⟩ "refA"
    (.failure true) rfl (by decide) rfl

/-- Every configured (and the default) rate limit is positive. -/
lemma rateLimitConfigFor_limit_pos (endpoint : String) :
    0 < (rateLimitConfigFor endpoint).limit := by
  unfold rateLimitConfigFor
  split_ifs <;> decide

/-- Running `checkRateLimit` repeatedly inside one window (every call time
at most the entry's `resetTime`) just counts up, and no call is limited
while the running count stays within the endpoint's limit. -/
lemma rlCalls_within_window (endpoint : String) (ts : List Int) (c : Nat) (R : Int)
    (hin : ∀ t ∈ ts, t ≤ R)
    (hle : c + ts.length ≤ (rateLimitConfigFor endpoint).limit) :
    rlCalls endpoint ts (some ⟨c, R⟩) =
      (some ⟨c + ts.length, R⟩, List.replicate ts.length false) := by
  induction ts generalizing c with
  | nil => simp [rlCalls]
  | cons t ts ih =>
    have ht : ¬ (R < t) := not_lt.mpr (hin t (List.mem_cons_self _ _))
    have hstep : checkRateLimit endpoint t (some ⟨c, R⟩) =
        (⟨false, R, (rateLimitConfigFor endpoint).limit,
          (rateLimitConfigFor endpoint).limit - (c + 1)⟩, ⟨c + 1, R⟩) := by
      have hnl : ¬ ((rateLimitConfigFor endpoint).limit < c + 1) := by
        apply not_lt.mpr
        calc c + 1 ≤ c + (ts.length + 1) := by omega
          _ ≤ (rateLimitConfigFor endpoint).limit := by
              simpa [Nat.add_comm, Nat.add_assoc] using hle
      simp [checkRateLimit, ht, hnl]
    have hrest := ih (c + 1) (fun x hx => hin x (List.mem_cons_of_mem _ hx))
      (by simpa [Nat.add_comm, Nat.add_assoc, Nat.add_left_comm] using hle)
    simp only [rlCalls, hstep, hrest, List.length_cons, List.replicate_succ]
    have hc : c + 1 + ts.length = c + (ts.length + 1) := by omega
    rw [hc]

/-- C7: for every endpoint (configured or default, with limit N and
window W) and every user key starting fresh, the first N calls within one
fixed window all pass the rate-limit check; the (N+1)-th call inside the
window is limited and `makeApiRequest` performs no network call for it;
and a call after the window has elapsed passes again. -/
theorem c7_rate_limit_window (endpoint : String) (t0 t t' : Int) (ts : List Int)
    (hts : ∀ x ∈ ts, x ≤ t0 + (rateLimitConfigFor endpoint).windowMs)
    (ht : t ≤ t0 + (rateLimitConfigFor endpoint).windowMs)
    (ht' : t0 + (rateLimitConfigFor endpoint).windowMs < t')
    (hlen : ts.length + 1 = (rateLimitConfigFor endpoint).limit) :
    (rlCalls endpoint (t0 :: ts) none).2 =
      List.replicate (ts.length + 1) false ∧
    (checkRateLimit endpoint t (rlCalls endpoint (t0 :: ts) none).1).1.limited = true ∧
    (makeApiRequestGate endpoint t (rlCalls endpoint (t0 :: ts) none).1).2 = false ∧
    (checkRateLimit endpoint t'
      (some (makeApiRequestGate endpoint t (rlCalls endpoint (t0 :: ts) none).1).1)).1.limited
      = false := by
  have hpos := rateLimitConfigFor_limit_pos endpoint
  set N := (rateLimitConfigFor endpoint).limit with hN
  set W := (rateLimitConfigFor endpoint).windowMs with hW
  have hfirst : checkRateLimit endpoint t0 none =
      (⟨false, t0 + W, N, N - 1⟩, ⟨1, t0 + W⟩) := by
    have hnl : ¬ (N < 1) := by omega
    simp [checkRateLimit, ← hN, ← hW, hnl]
  have hrest := rlCalls_within_window endpoint ts 1 (t0 + W) hts (by omega)
  have hrun : rlCalls endpoint (t0 :: ts) none =
      (some ⟨1 + ts.length, t0 + W⟩, false :: List.replicate ts.length false) := by
    simp [rlCalls, hfirst, hrest]
  have hcount : 1 + ts.length = N := by omega
  have hlimited : checkRateLimit endpoint t (some ⟨N, t0 + W⟩) =
      (⟨true, t0 + W, N, N - (N + 1)⟩, ⟨N + 1, t0 + W⟩) := by
    have hnt : ¬ (t0 + W < t) := not_lt.mpr ht
    have hl : N < N + 1 := by omega
    simp [checkRateLimit, ← hN, ← hW, hnt, hl]
  have hafter : checkRateLimit endpoint t' (some ⟨N + 1, t0 + W⟩) =
      (⟨false, t' + W, N, N - 1⟩, ⟨1, t' + W⟩) := by
    have hnl : ¬ (N < 1) := by omega
    simp [checkRateLimit, ← hN, ← hW, ht', hnl]
  refine ⟨?_, ?_, ?_, ?_⟩
  · rw [hrun]
    simp [List.replicate_succ]
  · rw [hrun, hcount, hlimited]
  · rw [makeApiRequestGate, hrun, hcount, hlimited]
    rfl
  · rw [makeApiRequestGate, hrun, hcount, hlimited]
    simp only
    rw [hafter]

/-- Witness for C7 on the OTP-request endpoint (limit 5 per 60000 ms):
five calls pass, the sixth inside the window is limited with no network
call, and a call after the window passes. -/
theorem c7_rate_limit_window_witness :
    (rlCalls "/api/auth/email-otp/request" (0 :: [1, 2, 3, 4]) none).2 =
      List.replicate 5 false ∧
    (checkRateLimit "/api/auth/email-otp/request" 5
      (rlCalls "/api/auth/email-otp/request" (0 :: [1, 2, 3, 4]) none).1).1.limited = true ∧
    (makeApiRequestGate "/api/auth/email-otp/request" 5
      (rlCalls "/api/auth/email-otp/request" (0 :: [1, 2, 3, 4]) none).1).2 = false ∧
    (checkRateLimit "/api/auth/email-otp/request" 60001
      (some (makeApiRequestGate "/api/auth/email-otp/request" 5
        (rlCalls "/api/auth/email-otp/request" (0 :: [1, 2, 3, 4]) none).1).1)).1.limited
      = false := by
  have h := c7_rate_limit_window "/api/auth/email-otp/request" 0 5 60001 [1, 2, 3, 4]
    (by decide) (by decide) (by decide) (by decide)
  simpa using h

/-- C8 (code slip, evaluated at the failing input): the retry-cap check
of `verifyEmailOtp` compares against the imported `OTP_MAX_RETRIES`,
which config.js does not define, so the comparison is against undefined
and always false — a session that has already failed a million
verification attempts is still accepted (and then consumed by the
success path), and the cap branch that deletes the entry never fires.
With a defined cap (here 5) the code would behave as the claim states:
the next attempt after the cap, even with the correct OTP, deletes the
entry and fails. The entry is deleted on successful verification. -/
theorem c8_otp_retry_cap_bug :
    jsGeCap 1000000 OTP_MAX_RETRIES = false ∧
    verifyEmailOtp OTP_MAX_RETRIES (some ⟨"sid1", 0, 1000000⟩) "sid1" .ok =
      (none, .ok true) ∧
    verifyEmailOtp (some 5) (some ⟨"sid1", 0, 5⟩) "sid1" .ok =
      (none, .error "Too many failed attempts. Please request a new OTP.") := by
  exact ⟨rfl, rfl, rfl⟩

/-- Entries filtered out by key are never active for that key. -/
lemma cacheActive_filter_self (c : PusherClient1.Cache) (key : String) (now : Int) :
    PusherClient1.cacheActive (c.filter (fun e => e.1 != key)) key now = false := by
  rw [PusherClient1.cacheActive, List.any_eq_false]
  intro e he
  have hne := List.of_mem_filter he
  simp only [bne_iff_ne, ne_eq] at hne
  simp [hne]

/-- C4 (amended, first implementation): for a well-formed deposit event
and a cache with no live entry for the (user, txHash) key, delivering
the event, then delivering it again within the 1-hour window, then again
after the window has expired, sends exactly one message, then zero, then
one. -/
theorem c4_dedup_window (u h amt cur net : String) (t1 t2 t3 : Int)
    (c0 : PusherClient1.Cache)
    (hc0 : PusherClient1.cacheActive c0 (u ++ ":" ++ h) t1 = false)
    (hwin : t2 < t1 + 3600000) (hexp : t1 + 3600000 ≤ t3) :
    (PusherClient1.handleDepositEvent u t1 c0
        ⟨some amt, some cur, some ⟨some net, some h⟩⟩ true true).2 = 1 ∧
    (PusherClient1.handleDepositEvent u t2
        (PusherClient1.handleDepositEvent u t1 c0
          ⟨some amt, some cur, some ⟨some net, some h⟩⟩ true true).1
        ⟨some amt, some cur, some ⟨some net, some h⟩⟩ true true).2 = 0 ∧
    (PusherClient1.handleDepositEvent u t3
        (PusherClient1.handleDepositEvent u t2
          (PusherClient1.handleDepositEvent u t1 c0
            ⟨some amt, some cur, some ⟨some net, some h⟩⟩ true true).1
          ⟨some amt, some cur, some ⟨some net, some h⟩⟩ true true).1
        ⟨some amt, some cur, some ⟨some net, some h⟩⟩ true true).2 = 1 := by
  set key := u ++ ":" ++ h with hkey
  have h1 : PusherClient1.handleDepositEvent u t1 c0
      ⟨some amt, some cur, some ⟨some net, some h⟩⟩ true true =
      ((key, t1 + 3600000) :: c0.filter (fun e => e.1 != key), 1) := by
    simp [PusherClient1.handleDepositEvent, hc0, hkey]
  have hact2 : PusherClient1.cacheActive
      ((key, t1 + 3600000) :: c0.filter (fun e => e.1 != key)) key t2 = true := by
    simp [PusherClient1.cacheActive, hwin]
  have h2 : PusherClient1.handleDepositEvent u t2
      ((key, t1 + 3600000) :: c0.filter (fun e => e.1 != key))
      ⟨some amt, some cur, some ⟨some net, some h⟩⟩ true true =
      ((key, t1 + 3600000) :: c0.filter (fun e => e.1 != key), 0) := by
    simp [PusherClient1.handleDepositEvent, hact2, hkey]
  have hact3 : PusherClient1.cacheActive
      ((key, t1 + 3600000) :: c0.filter (fun e => e.1 != key)) key t3 = false := by
    have hn3 : ¬ (t3 < t1 + 3600000) := not_lt.mpr hexp
    simpa [PusherClient1.cacheActive, hn3] using
      cacheActive_filter_self c0 key t3
  have h3 : (PusherClient1.handleDepositEvent u t3
      ((key, t1 + 3600000) :: c0.filter (fun e => e.1 != key))
      ⟨some amt, some cur, some ⟨some net, some h⟩⟩ true true).2 = 1 := by
    simp [PusherClient1.handleDepositEvent, hact3, hkey]
  refine ⟨?_, ?_, ?_⟩
  · rw [h1]
  · simp only [h1]
    rw [h2]
  · simp only [h1, h2]
    exact h3

/-- Witness for C4 (amended) at a concrete user, hash and times 0,
10, 3600000. -/
theorem c4_dedup_window_witness :
    (PusherClient1.handleDepositEvent "42" 0 []
        ⟨some "5", some "USDC", some ⟨some "137", some "0xdead"⟩⟩ true true).2 = 1 ∧
    (PusherClient1.handleDepositEvent "42" 10
        (PusherClient1.handleDepositEvent "42" 0 []
          ⟨some "5", some "USDC", some ⟨some "137", some "0xdead"⟩⟩ true true).1
        ⟨some "5", some "USDC", some ⟨some "137", some "0xdead"⟩⟩ true true).2 = 0 ∧
    (PusherClient1.handleDepositEvent "42" 3600000
        (PusherClient1.handleDepositEvent "42" 10
          (PusherClient1.handleDepositEvent "42" 0 []
            ⟨some "5", some "USDC", some ⟨some "137", some "0xdead"⟩⟩ true true).1
          ⟨some "5", some "USDC", some ⟨some "137", some "0xdead"⟩⟩ true true).1
        ⟨some "5", some "USDC", some ⟨some "137", some "0xdead"⟩⟩ true true).2 = 1 :=
  c4_dedup_window "42" "0xdead" "5" "USDC" "137" 0 10 3600000 []
    (by decide) (by decide) (by decide)

/-- C4 counterexample: the file's second `handleDepositEvent`
implementation has no dedup cache — delivering the same deposit event
twice (no static handler set, bot instance available) sends a direct
chat message both times, two messages in total where the claim requires
exactly one. -/
theorem c4_counterexample :
    PusherClient2.handleDepositEvent false false true +
      PusherClient2.handleDepositEvent false false true = 2 ∧
    PusherClient2.handleDepositEvent false false true = 1 := by
  exact ⟨rfl, rfl⟩
